import Mathlib

/-!
# Verification of honeybee-display wireframe extraction and label placement

Shallow embedding of the core algorithms of `honeybee_display` (colorobj.py,
face.py, aperture.py) over exact rational coordinates, together with proofs
of the spec's claims about them.
-/

namespace HoneybeeDisplay

/-- A 3D vector / point with exact rational coordinates
(models `ladybug_geometry.geometry3d.Vector3D` / `Point3D`). -/
structure Vec3 where
  x : ℚ
  y : ℚ
  z : ℚ
  deriving DecidableEq, Repr

instance : Neg Vec3 := ⟨fun v => ⟨-v.x, -v.y, -v.z⟩⟩

instance : Add Vec3 := ⟨fun a b => ⟨a.x + b.x, a.y + b.y, a.z + b.z⟩⟩

instance : SMul ℚ Vec3 := ⟨fun c v => ⟨c * v.x, c * v.y, c * v.z⟩⟩

theorem Vec3.neg_def (v : Vec3) : -v = ⟨-v.x, -v.y, -v.z⟩ := rfl

theorem Vec3.add_def (a b : Vec3) : a + b = ⟨a.x + b.x, a.y + b.y, a.z + b.z⟩ := rfl

theorem Vec3.smul_def (c : ℚ) (v : Vec3) : c • v = ⟨c * v.x, c * v.y, c * v.z⟩ := rfl

/-- A `Face3D`: a closed boundary ring of points plus zero or more hole rings
(models `ladybug_geometry.geometry3d.Face3D`: `.boundary`, `.holes`;
`has_holes` corresponds to `¬ holes.isEmpty`). -/
structure Face3D where
  boundary : List Vec3
  holes : List (List Vec3)
  deriving DecidableEq, Repr

/-- The closed segments of a ring of N points: one segment per consecutive
point pair, closing back from the last point to the first (models
`Face3D.boundary_segments`, which yields N segments for N boundary points). -/
def ringSegments (ring : List Vec3) : List (Vec3 × Vec3) :=
  match ring with
  | [] => []
  | p :: _ => ring.zip (ring.drop 1 ++ [p])

/-- A line segment tagged with a rendering line width
(models `ladybug_display.geometry3d.DisplayLineSegment3D`). -/
structure DisplaySeg where
  seg : Vec3 × Vec3
  lineWidth : ℕ
  deriving DecidableEq, Repr

/-- The segments emitted for one `Face3D` at a given line width: all boundary
segments once, then — when the face has holes — for **each** hole the boundary
segments again (the source iterates `for hole in face3d.holes` but its inner
loop re-reads `face3d.boundary_segments`; hole-ring segments are never
emitted).  Models the body of `_process_wireframe` (colorobj.py 204-209) and
the per-face body of `_face_wireframe` (colorobj.py 190-195). -/
def face3dSegs (f : Face3D) (lineWidth : ℕ) : List DisplaySeg :=
  ((ringSegments f.boundary).map (fun s => ⟨s, lineWidth⟩)) ++
  (if f.holes.isEmpty then []
   else f.holes.flatMap (fun _hole => (ringSegments f.boundary).map (fun s => ⟨s, lineWidth⟩)))

/-- A Honeybee geometry object: its own `Face3D` geometry plus a list of
attached shade objects (shades are themselves such objects and may carry
sub-shades). -/
inductive HBObj where
  | mk (geometry : Face3D) (shades : List HBObj) : HBObj

/-- The object's own `Face3D`. -/
def HBObj.geometry : HBObj → Face3D
  | .mk g _ => g

/-- The object's attached shades. -/
def HBObj.shades : HBObj → List HBObj
  | .mk _ s => s

/-- Model of `_process_wireframe` (colorobj.py 200-217): emit the object's own
boundary/hole segments at `lineWidth`, then — for each shade in the object's
shade list — the shade's own boundary/hole segments at width 1 (the shade
loop repeats the same boundary/holes pattern verbatim; it never descends into
a shade's own shades). -/
def processWireframe (obj : HBObj) (lineWidth : ℕ) : List DisplaySeg :=
  face3dSegs obj.geometry lineWidth ++
  obj.shades.flatMap (fun shade => face3dSegs shade.geometry 1)

/-- Length of the closed segment list of a ring equals its point count. -/
theorem ringSegments_length (ring : List Vec3) :
    (ringSegments ring).length = ring.length := by
  cases ring with
  | nil => rfl
  | cons p t =>
    simp [ringSegments]

/-- A `flatMap` whose function ignores its argument concatenates `l.length`
copies of the fixed list. -/
theorem length_flatMap_const {α β : Type} (l : List α) (m : List β) :
    (l.flatMap (fun _ => m)).length = l.length * m.length := by
  induction l with
  | nil => simp
  | cons a t ih => simp [List.flatMap_cons, ih, Nat.succ_mul, Nat.add_comm]

/-- Every segment `face3dSegs` emits is a boundary segment at the given
width. -/
theorem face3dSegs_mem (f : Face3D) (lw : ℕ) :
    ∀ s ∈ face3dSegs f lw, s.seg ∈ ringSegments f.boundary ∧ s.lineWidth = lw := by
  intro s hs
  simp only [face3dSegs, List.mem_append] at hs
  rcases hs with hs | hs
  · simp only [List.mem_map] at hs
    obtain ⟨a, ha, rfl⟩ := hs
    exact ⟨ha, rfl⟩
  · split at hs
    · simp at hs
    · simp only [List.mem_flatMap, List.mem_map] at hs
      obtain ⟨_, _, a, ha, rfl⟩ := hs
      exact ⟨ha, rfl⟩

/-- Claim C1: an object with an N-point boundary and H holes yields exactly
N + N·H segments, every one of them a boundary-ring segment. -/
theorem face3dSegs_count (f : Face3D) (lw : ℕ) :
    (face3dSegs f lw).length =
      f.boundary.length + f.boundary.length * f.holes.length ∧
    ∀ s ∈ face3dSegs f lw, s.seg ∈ ringSegments f.boundary := by
  constructor
  · simp only [face3dSegs, List.length_append, List.length_map, ringSegments_length]
    split
    · rename_i h
      rw [List.isEmpty_iff] at h
      simp [h]
    · rw [length_flatMap_const, List.length_map, ringSegments_length,
        Nat.mul_comm]
  · intro s hs
    exact (face3dSegs_mem f lw s hs).1

/-- Witness for `face3dSegs_count`: a triangle with one hole yields
3 + 3·1 segments and its first output segment is a boundary segment. -/
theorem face3dSegs_count_witness :
    (face3dSegs ⟨[⟨0,0,0⟩, ⟨1,0,0⟩, ⟨1,1,0⟩], [[⟨0,0,0⟩]]⟩ 2).length = 3 + 3 * 1 ∧
    (⟨(⟨0,0,0⟩, ⟨1,0,0⟩), 2⟩ : DisplaySeg).seg ∈
      ringSegments [⟨0,0,0⟩, ⟨1,0,0⟩, ⟨1,1,0⟩] :=
  ⟨(face3dSegs_count ⟨[⟨0,0,0⟩, ⟨1,0,0⟩, ⟨1,1,0⟩], [[⟨0,0,0⟩]]⟩ 2).1,
   (face3dSegs_count ⟨[⟨0,0,0⟩, ⟨1,0,0⟩, ⟨1,1,0⟩], [[⟨0,0,0⟩]]⟩ 2).2 _ (by decide)⟩

/-- Claim C2: the wireframe of an object splits into its own segments, all at the
primary line width, followed by the shade segments, all at width 1. -/
theorem processWireframe_weights (obj : HBObj) (lw : ℕ) :
    processWireframe obj lw =
      face3dSegs obj.geometry lw ++
        obj.shades.flatMap (fun shade => face3dSegs shade.geometry 1) ∧
    (∀ s ∈ face3dSegs obj.geometry lw, s.lineWidth = lw) ∧
    (∀ sh ∈ obj.shades, ∀ s ∈ face3dSegs sh.geometry 1, s.lineWidth = 1) := by
  refine ⟨rfl, ?_, ?_⟩
  · intro s hs
    exact (face3dSegs_mem _ _ s hs).2
  · intro sh _ s hs
    exact (face3dSegs_mem _ _ s hs).2

/-- Witness for `processWireframe_weights`: a square face at width 2 with a
triangular shade; a concrete own segment has width 2 and a concrete shade
segment has width 1. -/
theorem processWireframe_weights_witness :
    (⟨(⟨0,0,0⟩, ⟨1,0,0⟩), 2⟩ : DisplaySeg).lineWidth = 2 ∧
    (⟨(⟨5,0,0⟩, ⟨6,0,0⟩), 1⟩ : DisplaySeg).lineWidth = 1 :=
  ⟨(processWireframe_weights
      (.mk ⟨[⟨0,0,0⟩, ⟨1,0,0⟩, ⟨1,1,0⟩, ⟨0,1,0⟩], []⟩
        [.mk ⟨[⟨5,0,0⟩, ⟨6,0,0⟩, ⟨6,1,0⟩], []⟩ []]) 2).2.1 _ (by decide),
   (processWireframe_weights
      (.mk ⟨[⟨0,0,0⟩, ⟨1,0,0⟩, ⟨1,1,0⟩, ⟨0,1,0⟩], []⟩
        [.mk ⟨[⟨5,0,0⟩, ⟨6,0,0⟩, ⟨6,1,0⟩], []⟩ []]) 2).2.2
      (.mk ⟨[⟨5,0,0⟩, ⟨6,0,0⟩, ⟨6,1,0⟩], []⟩ []) (List.Mem.head _)
      ⟨(⟨5,0,0⟩, ⟨6,0,0⟩), 1⟩ (by decide)⟩

/-- Replace each attached shade by a copy with its own sub-shade list
emptied, leaving everything at depth ≤ 1 intact. -/
def stripSubShades (obj : HBObj) : HBObj :=
  ⟨obj.geometry, obj.shades.map (fun sh => ⟨sh.geometry, []⟩)⟩

/-- Claim C9: the wireframe never looks below the first shade level — removing all
sub-shades of all shades leaves the output unchanged. -/
theorem processWireframe_depth_one (obj : HBObj) (lw : ℕ) :
    processWireframe (stripSubShades obj) lw = processWireframe obj lw := by
  cases obj with
  | mk g shades =>
    simp only [processWireframe, stripSubShades, HBObj.geometry, HBObj.shades]
    congr 1
    induction shades with
    | nil => rfl
    | cons sh t ih => simp [List.flatMap_cons, ih, HBObj.geometry]

/-! ## Label placement (colorobj.py `color_room_to_vis_set` / `color_face_to_vis_set`) -/

/-- A plane: normal `n`, in-plane axes `x` and `y`, origin `o`
(models `ladybug_geometry.geometry3d.Plane`).  The library derives default
axes from the normal when none are given; here those derived axes are passed
in explicitly. -/
structure Plane3 where
  n : Vec3
  x : Vec3
  y : Vec3
  o : Vec3
  deriving DecidableEq, Repr

/-- Rotation `plane.rotate(plane.n, math.pi, plane.o)`: rotating a plane by π about
its own normal through its own origin fixes `n` and `o` and negates both
in-plane axes (exact-arithmetic semantics of the π rotation). -/
def Plane3.rotateSelfPi (p : Plane3) : Plane3 :=
  ⟨p.n, -p.x, -p.y, p.o⟩

/-- Translation `plane.move(v)`: translate the origin, leaving the orientation alone. -/
def Plane3.move (p : Plane3) (v : Vec3) : Plane3 :=
  ⟨p.n, p.x, p.y, p.o + v⟩

/-- From colorobj.py 115-116: `if base_plane.y.z < 0: base_plane =
base_plane.rotate(base_plane.n, math.pi, base_plane.o)`. -/
def uprightPlane (p : Plane3) : Plane3 :=
  if p.y.z < 0 then p.rotateSelfPi else p

/-- From colorobj.py 125-128: the in-plane nudge direction.
`m_vec = base_plane.y if base_plane.n.x < 0 else -base_plane.y` when
`n.x != 0`, else `m_vec = base_plane.y if base_plane.n.z < 0 else
-base_plane.y`. -/
def moveVec (p : Plane3) : Vec3 :=
  if p.n.x ≠ 0 then (if p.n.x < 0 then p.y else -p.y)
  else (if p.n.z < 0 then p.y else -p.y)

/-- A text label (models `ladybug_display.geometry3d.DisplayText3D`). -/
structure TextLabel3D where
  text : String
  plane : Plane3
  height : ℚ
  font : String
  horizontalAlignment : String
  verticalAlignment : String
  deriving DecidableEq, Repr

/-- Bounding data of a room's geometry used by `color_room_to_vis_set`:
`.center`, `.max`, `.min`. -/
structure RoomGeo where
  center : Vec3
  max : Vec3
  min : Vec3
  deriving DecidableEq, Repr

/-- Data of one flat face geometry used by `color_face_to_vis_set`:
`.center`, `.normal`, `.max`, `.min`. -/
structure FaceGeo where
  center : Vec3
  normal : Vec3
  max : Vec3
  min : Vec3
  deriving DecidableEq, Repr

/-- From colorobj.py 46-47: `txt_len = len(room_prop) if len(room_prop) > 10 else
10; txt_h = (room.geometry.max.x - room.geometry.min.x) / txt_len`. -/
def roomAutoHeight (extent : ℚ) (len : ℕ) : ℚ :=
  extent / (if 10 < len then (len : ℚ) else 10)

/-- From colorobj.py 118-121: `txt_len = len(face_prop) if len(face_prop) > 10
else 10; largest_dim = max(...); txt_h = largest_dim / (txt_len * 2)`. -/
def faceAutoHeight (largestDim : ℚ) (len : ℕ) : ℚ :=
  largestDim / ((if 10 < len then (len : ℚ) else 10) * 2)

/-- One room text label, from the body of the room loop of
`color_room_to_vis_set` (colorobj.py 42-53).  `defX`/`defY` are the
library-derived default axes of `Plane(Vector3D(0, 0, 1), cent_pt)`. -/
def roomLabel (roomProp : String) (room : RoomGeo) (defX defY : Vec3)
    (txtHeight : Option ℚ) (font : String) : TextLabel3D :=
  let centPt := room.center
  let basePlane : Plane3 := ⟨⟨0, 0, 1⟩, defX, defY, centPt⟩
  let txtH : ℚ :=
    match txtHeight with
    | none => roomAutoHeight (room.max.x - room.min.x) roomProp.length
    | some h => h
  { text := roomProp, plane := basePlane, height := txtH, font := font,
    horizontalAlignment := "Center", verticalAlignment := "Middle" }

/-- One face text label, from the body of the face loop of
`color_face_to_vis_set` (colorobj.py 113-133; identically
energy/colorobj.py 99-120): build the plane from the face's normal and
center, rotate it by π about its normal when its Y axis points downward,
compute the text height, then move the origin by `m_vec * txt_h`.
`defX`/`defY` are the library-derived default axes of
`Plane(f_geo.normal, cent_pt)`. -/
def faceLabel (faceProp : String) (geo : FaceGeo) (defX defY : Vec3)
    (txtHeight : Option ℚ) (font : String) : TextLabel3D :=
  let basePlane0 : Plane3 := ⟨geo.normal, defX, defY, geo.center⟩
  let basePlane1 := uprightPlane basePlane0
  let txtH : ℚ :=
    match txtHeight with
    | none =>
        faceAutoHeight
          (max (geo.max.x - geo.min.x) (geo.max.y - geo.min.y)) faceProp.length
    | some h => h
  let basePlane2 := basePlane1.move (txtH • moveVec basePlane1)
  { text := faceProp, plane := basePlane2, height := txtH, font := font,
    horizontalAlignment := "Center", verticalAlignment := "Middle" }

/-- Error taxonomy of the spec; the embedded code paths below never actually
produce one. -/
inductive VisError where
  | invalidConfiguration : VisError
  deriving DecidableEq, Repr

/-- The label construction of `color_room_to_vis_set` viewed in a fallible
context: the source body contains no raise statement, so it always
returns a label. -/
def roomLabelE (roomProp : String) (room : RoomGeo) (defX defY : Vec3)
    (txtHeight : Option ℚ) (font : String) : Except VisError TextLabel3D :=
  Except.ok (roomLabel roomProp room defX defY txtHeight font)

/-- The label construction of `color_face_to_vis_set` viewed in a fallible
context: the source body contains no raise statement, so it always
returns a label. -/
def faceLabelE (faceProp : String) (geo : FaceGeo) (defX defY : Vec3)
    (txtHeight : Option ℚ) (font : String) : Except VisError TextLabel3D :=
  Except.ok (faceLabel faceProp geo defX defY txtHeight font)

/-- Claim C3: every face label's anchor plane has a Y axis with non-negative
vertical component, and the later move step leaves the orientation (all
three axes) unchanged from the post-rotation plane. -/
theorem face_label_upright (prop : String) (geo : FaceGeo) (defX defY : Vec3)
    (th : Option ℚ) (font : String) :
    0 ≤ (faceLabel prop geo defX defY th font).plane.y.z ∧
    (faceLabel prop geo defX defY th font).plane.y =
      (uprightPlane ⟨geo.normal, defX, defY, geo.center⟩).y ∧
    (faceLabel prop geo defX defY th font).plane.n =
      (uprightPlane ⟨geo.normal, defX, defY, geo.center⟩).n ∧
    (faceLabel prop geo defX defY th font).plane.x =
      (uprightPlane ⟨geo.normal, defX, defY, geo.center⟩).x := by
  refine ⟨?_, rfl, rfl, rfl⟩
  simp only [faceLabel, Plane3.move, uprightPlane, Plane3.rotateSelfPi]
  split
  · rename_i hneg
    simp only [Vec3.neg_def] at hneg ⊢
    linarith
  · rename_i hpos
    simpa using le_of_not_lt hpos

/-- The nudge-direction rule exactly as the claim words it: with `n.x ≠ 0`,
move along `-y` when `n.x > 0` else `+y`; with `n.x = 0`, move along `-y`
when `n.z < 0` else `+y`. -/
def moveVecClaim (p : Plane3) : Vec3 :=
  if p.n.x ≠ 0 then (if 0 < p.n.x then -p.y else p.y)
  else (if p.n.z < 0 then -p.y else p.y)

/-- The nudge-direction rule as the source actually implements it: the
claim's rule with the `n.x = 0` branch flipped — with `n.x = 0`, move along
`+y` when `n.z < 0` else `-y`. -/
def moveVecAmended (p : Plane3) : Vec3 :=
  if p.n.x ≠ 0 then (if 0 < p.n.x then -p.y else p.y)
  else (if p.n.z < 0 then p.y else -p.y)

/-- The source's `m_vec` selection agrees with the amended rule. -/
theorem moveVec_eq_amended (p : Plane3) : moveVec p = moveVecAmended p := by
  unfold moveVec moveVecAmended
  rcases lt_trichotomy p.n.x 0 with h | h | h
  · rw [if_pos (ne_of_lt h), if_pos (ne_of_lt h), if_pos h,
      if_neg (by linarith)]
  · simp [h]
  · rw [if_pos (ne_of_gt h), if_pos (ne_of_gt h), if_neg (by linarith),
      if_pos h]

/-- Claim C4 counterexample: a downward-facing face (normal `(0,0,-1)`, library
default axes `x = (1,0,0)`, `y = (0,-1,0)`) with explicit text height 1.
The code moves the origin to `(0,-1,0)` (along `+Y` since `n.x = 0` and
`n.z < 0`), while the claim's rule predicts `(0,1,0)` (along `-Y`). -/
theorem face_label_nudge_counterexample :
    (faceLabel "A" ⟨⟨0,0,0⟩, ⟨0,0,-1⟩, ⟨1,1,0⟩, ⟨0,0,0⟩⟩ ⟨1,0,0⟩ ⟨0,-1,0⟩
        (some 1) "Arial").plane.o = ⟨0,-1,0⟩ ∧
    (uprightPlane ⟨⟨0,0,-1⟩, ⟨1,0,0⟩, ⟨0,-1,0⟩, ⟨0,0,0⟩⟩).o +
      (1 : ℚ) • moveVecClaim (uprightPlane ⟨⟨0,0,-1⟩, ⟨1,0,0⟩, ⟨0,-1,0⟩, ⟨0,0,0⟩⟩) =
        ⟨0,1,0⟩ ∧
    (faceLabel "A" ⟨⟨0,0,0⟩, ⟨0,0,-1⟩, ⟨1,1,0⟩, ⟨0,0,0⟩⟩ ⟨1,0,0⟩ ⟨0,-1,0⟩
        (some 1) "Arial").plane.o ≠
      (uprightPlane ⟨⟨0,0,-1⟩, ⟨1,0,0⟩, ⟨0,-1,0⟩, ⟨0,0,0⟩⟩).o +
        (1 : ℚ) • moveVecClaim (uprightPlane ⟨⟨0,0,-1⟩, ⟨1,0,0⟩, ⟨0,-1,0⟩, ⟨0,0,0⟩⟩) := by
  refine ⟨?_, ?_, ?_⟩ <;>
    norm_num [faceLabel, uprightPlane, Plane3.rotateSelfPi, Plane3.move, moveVec,
      moveVecClaim, Vec3.add_def, Vec3.smul_def, Vec3.neg_def, Vec3.mk.injEq]

/-- Claim C4 (amended): the anchor origin is moved by the label's text height
along the direction given by the amended rule (`n.x ≠ 0`: `-y` when
`n.x > 0` else `+y`; `n.x = 0`: `+y` when `n.z < 0` else `-y`). -/
theorem face_label_nudge (prop : String) (geo : FaceGeo) (defX defY : Vec3)
    (th : Option ℚ) (font : String) :
    (faceLabel prop geo defX defY th font).plane.o =
      (uprightPlane ⟨geo.normal, defX, defY, geo.center⟩).o +
        (faceLabel prop geo defX defY th font).height •
          moveVecAmended (uprightPlane ⟨geo.normal, defX, defY, geo.center⟩) := by
  simp only [faceLabel, Plane3.move, moveVec_eq_amended]

/-- The source's `len(s) if len(s) > 10 else 10` is `max (len s) 10`. -/
theorem autoLen_cast (n : ℕ) :
    (if 10 < n then (n : ℚ) else 10) = ((max n 10 : ℕ) : ℚ) := by
  by_cases h : 10 < n
  · rw [if_pos h, max_eq_left h.le]
  · rw [if_neg h, max_eq_right (le_of_not_lt h)]
    norm_num

/-- Claim C5: a room label with no explicit height sits on a plane with origin at
the room's center and normal `(0,0,1)`, with height the X bounding extent
over `max (len value) 10`; concretely, centroid `(5,5,3)`, value `"Office"`,
X-extent 10 gives height 1, origin `(5,5,3)`, normal `(0,0,1)`. -/
theorem room_label_spec (prop : String) (room : RoomGeo) (defX defY : Vec3)
    (font : String) :
    (roomLabel prop room defX defY none font).plane.o = room.center ∧
    (roomLabel prop room defX defY none font).plane.n = ⟨0, 0, 1⟩ ∧
    (roomLabel prop room defX defY none font).height =
      (room.max.x - room.min.x) / ((max prop.length 10 : ℕ) : ℚ) ∧
    (roomLabel "Office" ⟨⟨5,5,3⟩, ⟨10,8,6⟩, ⟨0,0,0⟩⟩ defX defY none font).height = 1 ∧
    (roomLabel "Office" ⟨⟨5,5,3⟩, ⟨10,8,6⟩, ⟨0,0,0⟩⟩ defX defY none font).plane.o =
      ⟨5, 5, 3⟩ ∧
    (roomLabel "Office" ⟨⟨5,5,3⟩, ⟨10,8,6⟩, ⟨0,0,0⟩⟩ defX defY none font).plane.n =
      ⟨0, 0, 1⟩ := by
  refine ⟨rfl, rfl, ?_, ?_, rfl, rfl⟩
  · simp [roomLabel, roomAutoHeight, autoLen_cast]
  · have hlen : "Office".length = 6 := rfl
    simp only [roomLabel, roomAutoHeight, hlen]
    norm_num

/-- Claim C6: with a fixed positive extent, a longer formatted value (beyond 10
characters) gives a strictly smaller auto height, for both the room and the
face formulas. -/
theorem auto_height_strict_anti (extent : ℚ) (l₁ l₂ : ℕ) (hext : 0 < extent)
    (h₁ : 10 < l₁) (h₂ : l₁ < l₂) :
    roomAutoHeight extent l₂ < roomAutoHeight extent l₁ ∧
    faceAutoHeight extent l₂ < faceAutoHeight extent l₁ := by
  have hl₁ : (10 : ℚ) < (l₁ : ℚ) := by exact_mod_cast h₁
  have hl₂ : (l₁ : ℚ) < (l₂ : ℚ) := by exact_mod_cast h₂
  rw [roomAutoHeight, roomAutoHeight, if_pos h₁, if_pos (h₁.trans h₂),
    faceAutoHeight, faceAutoHeight, if_pos h₁, if_pos (h₁.trans h₂)]
  constructor
  · exact div_lt_div_of_pos_left hext (by linarith) hl₂
  · exact div_lt_div_of_pos_left hext (by linarith) (by linarith)

/-- Witness for `auto_height_strict_anti`: extent 10, lengths 11 vs 12. -/
theorem auto_height_strict_anti_witness :
    roomAutoHeight 10 12 < roomAutoHeight 10 11 ∧
    faceAutoHeight 10 12 < faceAutoHeight 10 11 :=
  auto_height_strict_anti 10 11 12 (by norm_num) (by norm_num) (by norm_num)

/-- Claim C7 counterexample: with an explicit text height of 0 (≤ 0), the room
label construction does not fail — it returns a label whose height is 0. -/
theorem explicit_height_no_failure_counterexample :
    roomLabelE "Office" ⟨⟨5,5,3⟩, ⟨10,8,6⟩, ⟨0,0,0⟩⟩ ⟨1,0,0⟩ ⟨0,1,0⟩
        (some 0) "Arial" ≠ Except.error VisError.invalidConfiguration ∧
    roomLabelE "Office" ⟨⟨5,5,3⟩, ⟨10,8,6⟩, ⟨0,0,0⟩⟩ ⟨1,0,0⟩ ⟨0,1,0⟩
        (some 0) "Arial" =
      Except.ok
        { text := "Office", plane := ⟨⟨0,0,1⟩, ⟨1,0,0⟩, ⟨0,1,0⟩, ⟨5,5,3⟩⟩,
          height := 0, font := "Arial",
          horizontalAlignment := "Center", verticalAlignment := "Middle" } :=
  ⟨fun h => Except.noConfusion h, rfl⟩

/-- Claim C7 (amended): a configured explicit height — positive or not — is used
verbatim as the label height, and the construction always succeeds (the
source performs no positivity check). -/
theorem explicit_height_verbatim (prop : String) (room : RoomGeo)
    (geo : FaceGeo) (defX defY : Vec3) (h : ℚ) (font : String) :
    roomLabelE prop room defX defY (some h) font =
      Except.ok (roomLabel prop room defX defY (some h) font) ∧
    (roomLabel prop room defX defY (some h) font).height = h ∧
    faceLabelE prop geo defX defY (some h) font =
      Except.ok (faceLabel prop geo defX defY (some h) font) ∧
    (faceLabel prop geo defX defY (some h) font).height = h :=
  ⟨rfl, rfl, rfl, rfl⟩

/-! ## Color-by selection (face.py `face_to_vis_set`, aperture.py
`aperture_to_vis_set`) -/

/-- Model of Python str.lower: lowercase every character. -/
def lowerStr (s : String) : String :=
  String.mk (s.data.map Char.toLower)

/-- From face.py 21: `color_by_attr = 'type_color' if color_by.lower() == 'type'
else 'bc_color'`, viewed in a fallible context; the source has no raise
path for unrecognized selectors. -/
def faceColorByAttr (colorBy : String) : Except VisError String :=
  Except.ok (if lowerStr colorBy = "type" then "type_color" else "bc_color")

/-- From aperture.py 24: the identical selector line of `aperture_to_vis_set`. -/
def apertureColorByAttr (colorBy : String) : Except VisError String :=
  Except.ok (if lowerStr colorBy = "type" then "type_color" else "bc_color")

/-- Claim C8 counterexample: the unrecognized selector `"banana"` does not fail —
both conversions silently select the boundary-condition color attribute. -/
theorem color_by_no_failure_counterexample :
    faceColorByAttr "banana" ≠ Except.error VisError.invalidConfiguration ∧
    faceColorByAttr "banana" = Except.ok "bc_color" ∧
    apertureColorByAttr "banana" = Except.ok "bc_color" :=
  ⟨fun h => Except.noConfusion h, rfl, rfl⟩

/-- Claim C8 (amended): every selector whose lowercase form is not `"type"` —
including any unrecognized string — silently selects `'bc_color'`; no
error is raised. -/
theorem color_by_fallback (s : String) (h : ¬ lowerStr s = "type") :
    faceColorByAttr s = Except.ok "bc_color" ∧
    apertureColorByAttr s = Except.ok "bc_color" := by
  rw [faceColorByAttr, apertureColorByAttr, if_neg h]
  exact ⟨rfl, rfl⟩

/-- Witness for `color_by_fallback`: even the documented selector
`"boundary_condition"` goes through the fallback branch. -/
theorem color_by_fallback_witness :
    faceColorByAttr "boundary_condition" = Except.ok "bc_color" ∧
    apertureColorByAttr "boundary_condition" = Except.ok "bc_color" :=
  color_by_fallback "boundary_condition" (by decide)

/-! ## N/A filtering in face-level text-label mode (colorobj.py 111-134) -/

/-- The body of the face-label loop (colorobj.py 112-134): when the
attribute differs from "N/A", build and append the label; else keep the
accumulator unchanged. -/
def colorFaceLabelStep (defX defY : Vec3) (txtHeight : Option ℚ)
    (font : String) (acc : List TextLabel3D) (p : String × FaceGeo) :
    List TextLabel3D :=
  if p.1 ≠ "N/A" then acc ++ [faceLabel p.1 p.2 defX defY txtHeight font]
  else acc

/-- The label layer of `color_face_to_vis_set` in text-label mode: fold the
loop body over the zipped attributes and flat geometries, starting from the
empty list. -/
def colorFaceLabels (attrs : List String) (geos : List FaceGeo)
    (defX defY : Vec3) (txtHeight : Option ℚ) (font : String) :
    List TextLabel3D :=
  (attrs.zip geos).foldl (colorFaceLabelStep defX defY txtHeight font) []

/-- Generalized loop invariant for the N/A filter. -/
theorem colorFaceLabels_foldl (defX defY : Vec3) (txtHeight : Option ℚ)
    (font : String) (l : List (String × FaceGeo)) (acc : List TextLabel3D) :
    l.foldl (colorFaceLabelStep defX defY txtHeight font) acc =
      acc ++ (l.filter (fun p => p.1 != "N/A")).map
        (fun p => faceLabel p.1 p.2 defX defY txtHeight font) := by
  induction l generalizing acc with
  | nil => simp
  | cons p t ih =>
    simp only [List.foldl_cons, List.filter_cons]
    by_cases h : p.1 = "N/A"
    · simp [colorFaceLabelStep, h, ih]
    · simp [colorFaceLabelStep, h, ih]

/-- Claim C10: the face label layer contains exactly one label per zipped
attribute/geometry pair whose attribute differs from `"N/A"`, in input
order, and the labels carry exactly those attribute strings. -/
theorem color_face_labels_na_filter (attrs : List String)
    (geos : List FaceGeo) (defX defY : Vec3) (txtHeight : Option ℚ)
    (font : String) :
    colorFaceLabels attrs geos defX defY txtHeight font =
      ((attrs.zip geos).filter (fun p => p.1 != "N/A")).map
        (fun p => faceLabel p.1 p.2 defX defY txtHeight font) ∧
    (colorFaceLabels attrs geos defX defY txtHeight font).map
        (fun lab => lab.text) =
      ((attrs.zip geos).filter (fun p => p.1 != "N/A")).map
        (fun p => p.1) := by
  have hmain := colorFaceLabels_foldl defX defY txtHeight font
    (attrs.zip geos) []
  rw [List.nil_append] at hmain
  refine ⟨hmain, ?_⟩
  rw [colorFaceLabels, hmain, List.map_map]
  rfl

end HoneybeeDisplay
